import Mathlib

/-
Shallow embedding of the venice-staking-bot orchestration core
(src/index.ts, src/bot.types.ts, src/constants.ts).

Modelling conventions:
* JS strings are Lean `String`s; `toLowerCase`/`includes` are modelled over
  the underlying character list (messages in this code base are ASCII).
* JS `bigint` values are `Nat` (gas, balances, rewards are non-negative)
  or `Int` where a difference is taken (`claimedAmount`); bigint division
  on non-negative operands is `Nat` division.
* Decimal config strings that the code feeds through viem's exact
  `parseUnits` are modelled as the exact base-unit integers they denote
  (fields `minStakeAmountUnits`, `maxGasPriceWei`); `gasLimitMultiplier`
  is never read by the logic and is omitted.
* Asynchronous ledger interactions are an explicit environment record
  (`CycleEnv`): each read or transaction-confirmation site of the source
  gets one field holding its outcome.
-/

/-- Error taxonomy from `bot.types.ts` (enum ErrorType). -/
inductive ErrorType where
  | NETWORK_ERROR
  | CONTRACT_ERROR
  | INSUFFICIENT_BALANCE
  | GAS_PRICE_TOO_HIGH
  | UNKNOWN_ERROR
deriving DecidableEq, Repr

/-- Tagged error from `bot.types.ts` (class BotError): kind, message, and
the wrapped original error (modelled by its message). -/
structure BotError where
  type : ErrorType
  message : String
  originalMessage : Option String
deriving DecidableEq, Repr

/-- Whether the pattern `p` is a prefix of `s` (character lists). -/
def listHasPfx : List Char → List Char → Bool
  | _, [] => true
  | [], _ :: _ => false
  | a :: s, b :: p => a == b && listHasPfx s p

/-- JS `String.prototype.includes`: `pat` occurs contiguously in `s`. -/
def listIncludes (s pat : List Char) : Bool :=
  if listHasPfx s pat then true
  else
    match s with
    | [] => false
    | _ :: rest => listIncludes rest pat

/-- JS `message.includes(pat)` on Lean strings. -/
def jsIncludes (s pat : String) : Bool :=
  listIncludes s.data pat.data

/-- JS `message.toLowerCase()` (ASCII-faithful). -/
def jsToLower (s : String) : String :=
  ⟨s.data.map Char.toLower⟩

/-- `categorizeError` from `index.ts` lines 124-141: case-insensitive
substring matching over the message, in fixed priority order. -/
def categorizeError (message : String) : ErrorType :=
  let m := jsToLower message
  if jsIncludes m "network" || jsIncludes m "connection" || jsIncludes m "timeout" then
    ErrorType.NETWORK_ERROR
  else if jsIncludes m "insufficient" || jsIncludes m "balance" then
    ErrorType.INSUFFICIENT_BALANCE
  else if jsIncludes m "gas" || jsIncludes m "fee" then
    ErrorType.GAS_PRICE_TOO_HIGH
  else if jsIncludes m "revert" || jsIncludes m "contract" then
    ErrorType.CONTRACT_ERROR
  else
    ErrorType.UNKNOWN_ERROR

/-- Spec-side restatement for the classifier claim: the priority table,
written the way the spec words it (a list of pattern groups with their
kinds, scanned in order). -/
def priorityTable : List (List String × ErrorType) :=
  [ (["network", "connection", "timeout"], ErrorType.NETWORK_ERROR),
    (["insufficient", "balance"], ErrorType.INSUFFICIENT_BALANCE),
    (["gas", "fee"], ErrorType.GAS_PRICE_TOO_HIGH),
    (["revert", "contract"], ErrorType.CONTRACT_ERROR) ]

/-- Spec-side classifier: return the kind of the first group in the table
with some pattern occurring in the lowered message, else Unknown. -/
def classifyByPriority (m : String) : List (List String × ErrorType) → ErrorType
  | [] => ErrorType.UNKNOWN_ERROR
  | (pats, k) :: rest =>
      if pats.any (fun p => jsIncludes m p) then k else classifyByPriority m rest

example : categorizeError "Network error: connection refused" = ErrorType.NETWORK_ERROR := by decide
example : categorizeError "insufficient balance for gas" = ErrorType.INSUFFICIENT_BALANCE := by decide
example : categorizeError "max fee per gas too low" = ErrorType.GAS_PRICE_TOO_HIGH := by decide
example : categorizeError "execution reverted" = ErrorType.CONTRACT_ERROR := by decide
example : categorizeError "something odd" = ErrorType.UNKNOWN_ERROR := by decide

/-- Observable trace of one `retryOperation` run: the 1-indexed attempt
numbers at which the operation was invoked, the backoff sleeps (in ms,
in order) performed between attempts, and the final outcome. -/
structure RetryTrace (α : Type) where
  attempts : List Nat
  sleeps : List Nat
  result : Except BotError α

/-- Loop body of `retryOperation` from `index.ts` lines 150-179.
`op i` is the outcome of the i-th invocation of the operation (the
environment for the asynchronous callback). `fuel` is the number of
attempts still available including the current one; the source loop
`for (attempt = 1; attempt <= maxRetries; attempt++)` starts with
`fuel = maxRetries`. The `fuel = 0` case is reachable only when
`maxRetries = 0`, where the source would dereference the undefined
`lastError`; it is modelled as an Unknown-kind error. -/
def retryGo (op : Nat → Except String α) (operationName : String)
    (baseDelay maxRetries : Nat) : Nat → Nat → RetryTrace α
  | _, 0 => ⟨[], [], Except.error ⟨ErrorType.UNKNOWN_ERROR, "no attempts were made", none⟩⟩
  | attempt, remaining + 1 =>
    match op attempt with
    | Except.ok v => ⟨[attempt], [], Except.ok v⟩
    | Except.error msg =>
      let errorType := categorizeError msg
      if errorType = ErrorType.INSUFFICIENT_BALANCE then
        -- do not retry critical errors
        ⟨[attempt], [], Except.error ⟨errorType, msg, some msg⟩⟩
      else if remaining = 0 then
        -- attempt = maxRetries: the loop ends, the final BotError is thrown
        ⟨[attempt], [],
          Except.error ⟨categorizeError msg,
            operationName ++ " failed after " ++ toString maxRetries ++ " attempts: " ++ msg,
            some msg⟩⟩
      else
        let delay := baseDelay * 2 ^ (attempt - 1)
        let r := retryGo op operationName baseDelay maxRetries (attempt + 1) remaining
        ⟨attempt :: r.attempts, delay :: r.sleeps, r.result⟩

/-- `retryOperation` from `index.ts` lines 143-180. -/
def retryOperation (op : Nat → Except String α) (operationName : String)
    (baseDelay maxRetries : Nat) : RetryTrace α :=
  retryGo op operationName baseDelay maxRetries 1 maxRetries

example :
    (retryOperation (fun _ => (Except.error "connection refused" : Except String Nat))
      "Claim rewards" 5 3).sleeps = [5, 10] := by decide

example :
    (retryOperation (fun i => if i = 2 then Except.ok 7 else Except.error "timeout") "x" 5 3).result
      = (Except.ok 7 : Except BotError Nat) := rfl

example :
    (retryOperation (fun _ => (Except.error "insufficient balance" : Except String Nat))
      "x" 5 5).attempts = [1] := by decide

/-- Metrics record from `bot.types.ts` (interface BotMetrics). Timestamps
(`Date`) are modelled as natural-number instants. -/
structure BotMetrics where
  totalClaimed : Int
  totalStaked : Int
  successfulCycles : Nat
  failedCycles : Nat
  lastSuccessfulCycle : Option Nat
  lastFailedCycle : Option Nat
  averageGasUsed : Nat
  totalGasCost : Nat
deriving DecidableEq, Repr

/-- `initializeMetrics` from `index.ts` lines 44-55. -/
def initializeMetrics : BotMetrics :=
  ⟨0, 0, 0, 0, none, none, 0, 0⟩

/-- `updateGasMetrics` from `index.ts` lines 230-239: incremental running
average over the successful-cycle count before its increment, plus the
cumulative gas cost. bigint division on non-negative operands is `Nat`
division. -/
def updateGasMetrics (m : BotMetrics) (gasUsed gasPrice : Nat) : BotMetrics :=
  let gasCost := gasUsed * gasPrice
  let totalTransactions := m.successfulCycles
  { m with
    averageGasUsed :=
      if totalTransactions > 0 then
        (m.averageGasUsed * totalTransactions + gasUsed) / (totalTransactions + 1)
      else gasUsed,
    totalGasCost := m.totalGasCost + gasCost }

/-- Success bookkeeping inlined in `executeClaimAndStake` (`index.ts`
lines 426-429): increment `successfulCycles`, stamp `lastSuccessfulCycle`. -/
def recordCycleSuccess (m : BotMetrics) (now : Nat) : BotMetrics :=
  { m with successfulCycles := m.successfulCycles + 1, lastSuccessfulCycle := some now }

/-- Failure bookkeeping inlined in `executeClaimAndStake` (`index.ts`
lines 442-445): increment `failedCycles`, stamp `lastFailedCycle`. -/
def recordCycleFailure (m : BotMetrics) (now : Nat) : BotMetrics :=
  { m with failedCycles := m.failedCycles + 1, lastFailedCycle := some now }

/-- Configuration from `bot.types.ts` (interface Config). The decimal
strings `minStakeAmount` and `maxGasPrice` are fed through viem's exact
`parseUnits(_, tokenDecimals)` / `parseUnits(_, 9)` by the source before
every comparison; they are modelled by the exact base-unit integers those
calls produce (`minStakeAmountUnits` in token base units,
`maxGasPriceWei` in wei). `gasLimitMultiplier` is never read by the
orchestration logic and is omitted. An absent optional field is `none`
(JS `undefined`, falsy). -/
structure Config where
  stakingContractAddress : String
  tokenContractAddress : String
  intervalHours : Nat
  maxRetries : Nat
  baseDelay : Nat
  rpcUrl : Option String
  minStakeAmountUnits : Option Nat
  maxGasPriceWei : Option Nat
  healthCheckInterval : Option Nat
  enableMetrics : Bool
deriving DecidableEq, Repr

/-- The three transaction-submitting call sites of a cycle. -/
inductive Tx where
  | claim
  | approve
  | stake
deriving DecidableEq, Repr

/-- Environment of one cycle: the outcome of every ledger interaction the
source performs, in program order. Reads that can fail carry their error
message; a confirmation carries `(gasUsed, effectiveGasPrice)` on
success (`.error` covers both a confirmation timeout and a receipt whose
status is not success, which the source turns into the thrown message
before its catch). Submission fields hold the already-wrapped outcome of
the surrounding `retryOperation` call. -/
structure CycleEnv where
  pendingRewards : Except String Nat
  gasPrice : Except String Nat
  balanceBefore : Except String Nat
  claimSubmit : Except BotError Unit
  claimConfirm : Except String (Nat × Nat)
  balanceAfter : Except String Nat
  allowance : Except String Nat
  approveGasPrice : Except String Nat
  approveSubmit : Except BotError Unit
  approveConfirm : Except String (Nat × Nat)
  stakeGasPrice : Except String Nat
  stakeSubmit : Except BotError Unit
  stakeConfirm : Except String (Nat × Nat)

/-- `checkGasPrice` from `index.ts` lines 182-201: no-op without a
configured ceiling; a failed fee read is swallowed (pass); an over-ceiling
reading throws a GAS_PRICE_TOO_HIGH BotError. The human-readable gwei
rendering inside the message is abstracted to decimal integers. -/
def checkGasPrice (cfg : Config) (gasPriceRead : Except String Nat) :
    Except BotError Unit :=
  match cfg.maxGasPriceWei with
  | none => Except.ok ()
  | some maxGasPriceWei =>
    match gasPriceRead with
    | Except.error _ => Except.ok ()
    | Except.ok gasPrice =>
      if gasPrice > maxGasPriceWei then
        Except.error ⟨ErrorType.GAS_PRICE_TOO_HIGH,
          "Gas price too high: " ++ toString gasPrice ++ " wei > "
            ++ toString maxGasPriceWei ++ " wei", none⟩
      else Except.ok ()

/-- `waitForTransaction` from `index.ts` lines 203-228: on a confirmed
success update gas metrics (when enabled); any failure is wrapped as a
NETWORK_ERROR BotError carrying the underlying message. -/
def waitForTransaction (cfg : Config) (m : BotMetrics)
    (confirm : Except String (Nat × Nat)) : BotMetrics × Except BotError Unit :=
  match confirm with
  | Except.ok (gasUsed, effectiveGasPrice) =>
    (if cfg.enableMetrics then updateGasMetrics m gasUsed effectiveGasPrice else m,
      Except.ok ())
  | Except.error msg => (m, Except.error ⟨ErrorType.NETWORK_ERROR, msg, some msg⟩)

/-- `claimRewards` from `index.ts` lines 254-317. Returns the
transactions submitted, the metrics after the step, and the claimed
amount (or the BotError thrown). A failed pending-reward read is
swallowed as zero (`getPendingRewards`, lines 241-248); non-BotError
failures are wrapped as CONTRACT_ERROR by the catch. -/
def claimRewards (cfg : Config) (m : BotMetrics) (env : CycleEnv) :
    List Tx × BotMetrics × Except BotError Int :=
  let pendingRewards := match env.pendingRewards with
    | Except.ok v => v
    | Except.error _ => 0
  if pendingRewards = 0 then ([], m, Except.ok 0)
  else
    let belowMin : Bool := match cfg.minStakeAmountUnits with
      | some minAmount => pendingRewards < minAmount
      | none => false
    if belowMin then ([], m, Except.ok 0)
    else
      match checkGasPrice cfg env.gasPrice with
      | Except.error e => ([], m, Except.error e)
      | Except.ok _ =>
        match env.balanceBefore with
        | Except.error msg =>
          ([], m, Except.error ⟨ErrorType.CONTRACT_ERROR,
            "Failed to claim rewards: " ++ msg, some msg⟩)
        | Except.ok initialBalance =>
          match env.claimSubmit with
          | Except.error e => ([Tx.claim], m, Except.error e)
          | Except.ok _ =>
            match waitForTransaction cfg m env.claimConfirm with
            | (m1, Except.error e) => ([Tx.claim], m1, Except.error e)
            | (m1, Except.ok _) =>
              match env.balanceAfter with
              | Except.error msg =>
                ([Tx.claim], m1, Except.error ⟨ErrorType.CONTRACT_ERROR,
                  "Failed to claim rewards: " ++ msg, some msg⟩)
              | Except.ok newBalance =>
                let claimedAmount : Int := (newBalance : Int) - (initialBalance : Int)
                let m2 :=
                  if claimedAmount > 0 then
                    if cfg.enableMetrics then
                      { m1 with totalClaimed := m1.totalClaimed + claimedAmount }
                    else m1
                  else m1
                ([Tx.claim], m2, Except.ok claimedAmount)

/-- `checkAndApproveAllowance` from `index.ts` lines 319-353: approve only
when the current allowance is below the claimed amount; non-BotError
failures are wrapped as CONTRACT_ERROR by the catch. -/
def checkAndApproveAllowance (cfg : Config) (m : BotMetrics) (env : CycleEnv)
    (amount : Int) : List Tx × BotMetrics × Except BotError Unit :=
  match env.allowance with
  | Except.error msg =>
    ([], m, Except.error ⟨ErrorType.CONTRACT_ERROR,
      "Failed to approve tokens: " ++ msg, some msg⟩)
  | Except.ok currentAllowance =>
    if (currentAllowance : Int) < amount then
      match checkGasPrice cfg env.approveGasPrice with
      | Except.error e => ([], m, Except.error e)
      | Except.ok _ =>
        match env.approveSubmit with
        | Except.error e => ([Tx.approve], m, Except.error e)
        | Except.ok _ =>
          match waitForTransaction cfg m env.approveConfirm with
          | (m1, Except.error e) => ([Tx.approve], m1, Except.error e)
          | (m1, Except.ok _) => ([Tx.approve], m1, Except.ok ())
    else ([], m, Except.ok ())

/-- `stakeTokens` from `index.ts` lines 355-409: skip non-positive and
below-minimum amounts, gate on gas, then submit and confirm; on success
add the amount to `totalStaked` (when metrics are enabled). -/
def stakeTokens (cfg : Config) (m : BotMetrics) (env : CycleEnv)
    (amount : Int) : List Tx × BotMetrics × Except BotError Unit :=
  if amount ≤ 0 then ([], m, Except.ok ())
  else
    let belowMin : Bool := match cfg.minStakeAmountUnits with
      | some minAmount => amount < (minAmount : Int)
      | none => false
    if belowMin then ([], m, Except.ok ())
    else
      match checkGasPrice cfg env.stakeGasPrice with
      | Except.error e => ([], m, Except.error e)
      | Except.ok _ =>
        match env.stakeSubmit with
        | Except.error e => ([Tx.stake], m, Except.error e)
        | Except.ok _ =>
          match waitForTransaction cfg m env.stakeConfirm with
          | (m1, Except.error e) => ([Tx.stake], m1, Except.error e)
          | (m1, Except.ok _) =>
            let m2 :=
              if cfg.enableMetrics then { m1 with totalStaked := m1.totalStaked + amount }
              else m1
            ([Tx.stake], m2, Except.ok ())

/-- `executeClaimAndStake` from `index.ts` lines 411-454: claim, then (for
a positive claimed amount) approve and stake; on success record a
successful cycle, on any error record a failed cycle and rethrow. All
errors reaching the catch are BotErrors already (each step wraps its own
failures), so the UNKNOWN_ERROR fallback of the catch never rewraps. -/
def executeClaimAndStake (cfg : Config) (m : BotMetrics) (env : CycleEnv)
    (now : Nat) : List Tx × BotMetrics × Except BotError Unit :=
  match claimRewards cfg m env with
  | (txs1, m1, Except.error e) =>
    (txs1, if cfg.enableMetrics then recordCycleFailure m1 now else m1, Except.error e)
  | (txs1, m1, Except.ok claimedAmount) =>
    if claimedAmount > 0 then
      match checkAndApproveAllowance cfg m1 env claimedAmount with
      | (txs2, m2, Except.error e) =>
        (txs1 ++ txs2, if cfg.enableMetrics then recordCycleFailure m2 now else m2,
          Except.error e)
      | (txs2, m2, Except.ok _) =>
        match stakeTokens cfg m2 env claimedAmount with
        | (txs3, m3, Except.error e) =>
          (txs1 ++ txs2 ++ txs3,
            if cfg.enableMetrics then recordCycleFailure m3 now else m3, Except.error e)
        | (txs3, m3, Except.ok _) =>
          (txs1 ++ txs2 ++ txs3,
            if cfg.enableMetrics then recordCycleSuccess m3 now else m3, Except.ok ())
    else
      (txs1, if cfg.enableMetrics then recordCycleSuccess m1 now else m1, Except.ok ())

/-- Scheduler-owned state from `index.ts`: the `isRunning` flag and the
two optional timer handles (a handle is modelled by whether it is set). -/
structure SchedulerState where
  isRunning : Bool
  mainInterval : Bool
  healthCheckInterval : Bool
deriving DecidableEq, Repr

/-- `stop` from `index.ts` lines 589-603: flip the run flag off and clear
whichever timer handles are set — the resulting state is always the fully
idle one. -/
def stop (_s : SchedulerState) : SchedulerState :=
  ⟨false, false, false⟩

/-- The main-cycle `setInterval` callback from `index.ts` lines 534-549,
given the outcome of the cycle it would run: a tick on a stopped bot is a
no-op; a cycle error stops the bot exactly when its kind is
INSUFFICIENT_BALANCE, every other outcome leaves the state unchanged. -/
def mainTick (s : SchedulerState) (cycleOutcome : Except BotError Unit) :
    SchedulerState :=
  if s.isRunning = false then s
  else
    match cycleOutcome with
    | Except.ok _ => s
    | Except.error err =>
      if err.type = ErrorType.INSUFFICIENT_BALANCE then stop s else s

/-- Runtime view for the non-overlap question: the scheduler state the
code can read, plus the runtime fact (invisible to the code, which keeps
no such field) of whether a previously started cycle has not yet
returned. -/
structure RuntimeState where
  sched : SchedulerState
  cycleInFlight : Bool
deriving DecidableEq, Repr

/-- Whether the main-cycle `setInterval` callback (`index.ts` line 535)
proceeds to invoke `executeClaimAndStake`: its only guard is
`if (!this.isRunning) return` — no in-flight check exists in the source. -/
def tickStartsCycle (r : RuntimeState) : Bool :=
  r.sched.isRunning

/-- Observable actions of `start` used to state its frame conditions. -/
inductive StartEffect where
  | warned
  | walletInitialized
  | healthChecked
  | ranCycle
  | timersArmed
deriving DecidableEq, Repr

/-- Whole-bot state for `start`/`stop`: configuration, scheduler flags and
metrics (`index.ts` fields of class VeniceStakingBot). -/
structure BotState where
  config : Config
  isRunning : Bool
  mainInterval : Bool
  healthCheckInterval : Bool
  metrics : BotMetrics
deriving DecidableEq, Repr

/-- Environment of one `start` call: the wallet-setup outcome and the
environment of the first synchronous cycle. The initial health check
reads are omitted because `performHealthCheck` catches everything and
never alters bot state. -/
structure StartEnv where
  wallet : Except String Unit
  cycle : CycleEnv
  now : Nat

/-- `start` from `index.ts` lines 514-584: an already-running bot only
emits a warning and returns; otherwise set up the wallet (failures are
wrapped as CONTRACT_ERROR by `setupWallet` and leave the bot stopped),
set the run flag, run a health check and a first cycle (a cycle error
clears the run flag and rethrows), then arm the main timer and, when
configured, the health-check timer. -/
def start (b : BotState) (env : StartEnv) :
    BotState × List StartEffect × Except BotError Unit :=
  if b.isRunning then (b, [StartEffect.warned], Except.ok ())
  else
    match env.wallet with
    | Except.error msg =>
      ({ b with isRunning := false }, [],
        Except.error ⟨ErrorType.CONTRACT_ERROR,
          "Failed to setup wallet: " ++ msg, some msg⟩)
    | Except.ok _ =>
      let b1 := { b with isRunning := true }
      match executeClaimAndStake b1.config b1.metrics env.cycle env.now with
      | (_, m2, Except.error e) =>
        ({ b1 with metrics := m2, isRunning := false },
          [StartEffect.walletInitialized, StartEffect.healthChecked, StartEffect.ranCycle],
          Except.error e)
      | (_, m2, Except.ok _) =>
        ({ b1 with
            metrics := m2,
            mainInterval := true,
            healthCheckInterval := b1.config.healthCheckInterval.isSome },
          [StartEffect.walletInitialized, StartEffect.healthChecked,
            StartEffect.ranCycle, StartEffect.timersArmed],
          Except.ok ())

/-- C4: error classification is a total, deterministic, pure function of
the message, equal — for every message — to the first match scanned over
the fixed priority table network/connection/timeout, insufficient/balance,
gas/fee, revert/contract, with Unknown as the default. -/
theorem categorizeError_priority (msg : String) :
    categorizeError msg = classifyByPriority (jsToLower msg) priorityTable := by
  simp only [categorizeError, classifyByPriority, priorityTable, List.any_cons, List.any_nil,
    Bool.or_false, Bool.or_assoc]

/-- C7: the running gas average is updated exactly as
`(avg * n + used) / (n + 1)` in exact integer arithmetic, with `n` the
successful-cycle count before its increment; and recording 100, 200, 300
across three successful cycles yields an average of exactly 200. -/
theorem updateGasMetrics_average_law :
    (∀ (m : BotMetrics) (used price : Nat),
      (updateGasMetrics m used price).averageGasUsed
        = (m.averageGasUsed * m.successfulCycles + used) / (m.successfulCycles + 1)) ∧
    (recordCycleSuccess (updateGasMetrics (recordCycleSuccess (updateGasMetrics
        (recordCycleSuccess (updateGasMetrics initializeMetrics 100 21) 1)
        200 22) 2) 300 23) 3).averageGasUsed = 200 := by
  constructor
  · intro m used price
    unfold updateGasMetrics
    by_cases h : m.successfulCycles > 0
    · simp [h]
    · have h0 : m.successfulCycles = 0 := by omega
      simp [h0]
  · decide

/-- C9: when a main-cycle tick surfaces an error on a running bot with
both timers armed, the scheduler reaches the fully stopped state (run
flag cleared, both timers cancelled) exactly when the error kind is
INSUFFICIENT_BALANCE; on every other kind the scheduler state is
unchanged, so future cycles stay scheduled. -/
theorem mainTick_stop_iff (s : SchedulerState) (e : BotError)
    (h1 : s.isRunning = true) (h2 : s.mainInterval = true)
    (h3 : s.healthCheckInterval = true) :
    (mainTick s (Except.error e) = SchedulerState.mk false false false
      ↔ e.type = ErrorType.INSUFFICIENT_BALANCE) ∧
    (e.type ≠ ErrorType.INSUFFICIENT_BALANCE → mainTick s (Except.error e) = s) := by
  obtain ⟨r, mi, hc⟩ := s
  simp only at h1 h2 h3
  subst h1; subst h2; subst h3
  unfold mainTick stop
  by_cases ht : e.type = ErrorType.INSUFFICIENT_BALANCE <;> simp [ht]

/-- Witness for C9 at a concrete running state and a concrete
insufficient-balance error. -/
theorem mainTick_stop_iff_witness :
    (mainTick ⟨true, true, true⟩ (Except.error ⟨ErrorType.INSUFFICIENT_BALANCE,
        "insufficient funds for gas", none⟩) = SchedulerState.mk false false false
      ↔ ErrorType.INSUFFICIENT_BALANCE = ErrorType.INSUFFICIENT_BALANCE) ∧
    (ErrorType.INSUFFICIENT_BALANCE ≠ ErrorType.INSUFFICIENT_BALANCE →
      mainTick ⟨true, true, true⟩ (Except.error ⟨ErrorType.INSUFFICIENT_BALANCE,
        "insufficient funds for gas", none⟩) = ⟨true, true, true⟩) :=
  mainTick_stop_iff ⟨true, true, true⟩
    ⟨ErrorType.INSUFFICIENT_BALANCE, "insufficient funds for gas", none⟩ rfl rfl rfl

/-- C10: calling start() while the bot is already running returns
immediately after a warning — the bot state (config, run flag, timer
handles, metrics) is returned unchanged, no wallet setup, health probe,
cycle, or timer arming happens, and no error is thrown. -/
theorem start_noop_when_running (b : BotState) (env : StartEnv)
    (h : b.isRunning = true) :
    start b env = (b, [StartEffect.warned], Except.ok ()) := by
  unfold start
  simp [h]

/-- Concrete running bot state used by the start() witness. -/
def botRunningSample : BotState :=
  ⟨⟨"0xstaking", "0xtoken", 24, 3, 1000, some "https://mainnet.base.org",
      some 1000000000000000, some 50000000000, some 60, true⟩,
    true, true, true,
    ⟨5, 5, 2, 1, some 11, some 7, 40000, 900⟩⟩

/-- Concrete cycle environment in which every interaction succeeds. -/
def envAllOk : CycleEnv :=
  ⟨Except.ok 0, Except.ok 1, Except.ok 0, Except.ok (), Except.ok (1, 1),
    Except.ok 0, Except.ok 0, Except.ok 1, Except.ok (), Except.ok (1, 1),
    Except.ok 1, Except.ok (), Except.ok (1, 1)⟩

/-- Witness for C10: a concrete already-running bot is returned unchanged
with only the warning emitted. -/
theorem start_noop_when_running_witness :
    start botRunningSample ⟨Except.ok (), envAllOk, 99⟩
      = (botRunningSample, [StartEffect.warned], Except.ok ()) :=
  start_noop_when_running botRunningSample ⟨Except.ok (), envAllOk, 99⟩ rfl

/-- C2 counterexample: in the runtime state where the bot is running,
both timers are armed and a previously started cycle is still in flight,
the main-cycle tick callback does proceed to invoke the orchestrator —
the source guard reads only `isRunning`, so a second, concurrent run
starts. -/
theorem tick_overlap_counterexample :
    tickStartsCycle ⟨⟨true, true, true⟩, true⟩ = true := by decide

/-- C2 amended: the scheduler does not serialize ticks against an
in-flight cycle; the tick's only guard is the run flag, so a tick that
fires while a previous cycle is still executing starts a new, concurrent
orchestrator run whenever the bot is running — a tick is prevented only
once stop() has cleared the run flag. -/
theorem tick_guard_amended (r : RuntimeState) (hflight : r.cycleInFlight = true) :
    (r.sched.isRunning = true → tickStartsCycle r = true) ∧
    tickStartsCycle ⟨stop r.sched, r.cycleInFlight⟩ = false := by
  refine ⟨fun h => h, ?_⟩
  rw [hflight]
  rfl

/-- Witness for C2's amended statement at a concrete in-flight state. -/
theorem tick_guard_amended_witness :
    ((⟨⟨true, true, true⟩, true⟩ : RuntimeState).sched.isRunning = true →
      tickStartsCycle ⟨⟨true, true, true⟩, true⟩ = true) ∧
    tickStartsCycle ⟨stop ⟨true, true, true⟩, true⟩ = false :=
  tick_guard_amended ⟨⟨true, true, true⟩, true⟩ rfl

/-- C5: an operation whose first failure classifies as
INSUFFICIENT_BALANCE is attempted exactly once regardless of the
configured attempt bound, with no backoff sleep, and the executor
immediately surfaces a BotError of that kind wrapping the original
error. -/
theorem retry_insufficient_short_circuit (op : Nat → Except String α)
    (name : String) (d mr msg : _) (hmr : 1 ≤ mr)
    (h1 : op 1 = Except.error msg)
    (hc : categorizeError msg = ErrorType.INSUFFICIENT_BALANCE) :
    retryOperation op name d mr
      = ⟨[1], [], Except.error ⟨ErrorType.INSUFFICIENT_BALANCE, msg, some msg⟩⟩ := by
  obtain ⟨n, rfl⟩ : ∃ n, mr = n + 1 := ⟨mr - 1, by omega⟩
  unfold retryOperation
  simp [retryGo, h1, hc]

/-- Witness for C5: a balance-type failure under maxAttempts = 5 is
attempted exactly once, sleeps never, and surfaces the wrapped kind. -/
theorem retry_insufficient_short_circuit_witness :
    retryOperation (fun _ => (Except.error "insufficient balance for transfer" : Except String Nat))
        "Stake tokens" 1000 5
      = ⟨[1], [], Except.error ⟨ErrorType.INSUFFICIENT_BALANCE,
          "insufficient balance for transfer", some "insufficient balance for transfer"⟩⟩ :=
  retry_insufficient_short_circuit
    (fun _ => (Except.error "insufficient balance for transfer" : Except String Nat))
    "Stake tokens" 1000 5 "insufficient balance for transfer" (by decide) rfl (by decide)

/-- Helper: when attempts `j, j+1, ..., j+k` all fail with retryable
kinds, the k-th backoff sleep of the loop started at attempt `j` (with
the fuel the source loop has there) is exactly `d * 2 ^ (j + k - 1)`. -/
theorem retryGo_sleep_get (op : Nat → Except String α) (name : String) (d mr : Nat) :
    ∀ k j, 1 ≤ j → j + k < mr →
      (∀ i, j ≤ i → i ≤ j + k → ∃ msg, op i = Except.error msg ∧
        categorizeError msg ≠ ErrorType.INSUFFICIENT_BALANCE) →
      (retryGo op name d mr j (mr - j + 1)).sleeps.get? k = some (d * 2 ^ (j + k - 1)) := by
  intro k
  induction k with
  | zero =>
    intro j hj hlt hfail
    obtain ⟨msg, hop, hret⟩ := hfail j le_rfl (by omega)
    have hrem : ¬ (mr - j = 0) := by omega
    simp [retryGo, hop, hret, hrem]
  | succ n ih =>
    intro j hj hlt hfail
    obtain ⟨msg, hop, hret⟩ := hfail j le_rfl (by omega)
    have hrem : ¬ (mr - j = 0) := by omega
    have hstep : (retryGo op name d mr j (mr - j + 1)).sleeps
        = d * 2 ^ (j - 1) :: (retryGo op name d mr (j + 1) (mr - j)).sleeps := by
      simp [retryGo, hop, hret, hrem]
    have hfuel : mr - j = mr - (j + 1) + 1 := by omega
    rw [hstep, List.get?_cons_succ, hfuel]
    have := ih (j + 1) (by omega) (by omega)
      (fun i hi1 hi2 => hfail i (by omega) (by omega))
    have he : j + 1 + n - 1 = j + (n + 1) - 1 := by omega
    rw [he] at this
    exact this

/-- C3: for every base delay d and attempt index a with
1 ≤ a ≤ maxAttempts - 1 on which (and before which) the operation fails
with retryable kinds, the executor sleeps exactly d * 2 ^ (a - 1)
milliseconds before attempt a + 1; in particular the first retry waits
exactly the base delay. -/
theorem retry_backoff_exact (op : Nat → Except String α) (name : String)
    (d mr a : Nat) (ha1 : 1 ≤ a) (ha2 : a < mr)
    (hfail : ∀ i, 1 ≤ i → i ≤ a → ∃ msg, op i = Except.error msg ∧
      categorizeError msg ≠ ErrorType.INSUFFICIENT_BALANCE) :
    (retryOperation op name d mr).sleeps.get? (a - 1) = some (d * 2 ^ (a - 1)) := by
  have h := retryGo_sleep_get op name d mr (a - 1) 1 le_rfl (by omega)
    (fun i hi1 hi2 => hfail i hi1 (by omega))
  have hfuel : mr - 1 + 1 = mr := by omega
  have he : 1 + (a - 1) - 1 = a - 1 := by omega
  rw [hfuel, he] at h
  exact h

/-- Witness for C3: base delay 7, maxAttempts 3, attempt index a = 2
failing with network-kind errors — the sleep before attempt 3 is exactly
7 * 2 ^ 1 = 14 ms. -/
theorem retry_backoff_exact_witness :
    (retryOperation (fun _ => (Except.error "connection refused" : Except String Nat))
        "Stake tokens" 7 3).sleeps.get? 1 = some 14 := by
  have h := retry_backoff_exact
    (fun _ => (Except.error "connection refused" : Except String Nat))
    "Stake tokens" 7 3 2 (by decide) (by decide)
    (fun i _ _ => ⟨"connection refused", rfl, by decide⟩)
  simpa using h

/-- Helper: when every attempt from `j` through `mr` fails with a
retryable kind, the loop started at attempt `j` ends with the final
BotError built from the last (mr-th) observed error. -/
theorem retryGo_exhaust (op : Nat → Except String α) (name : String) (d mr : Nat)
    (msgf : Nat → String) :
    ∀ rem j, 1 ≤ j → j + rem = mr + 1 → j ≤ mr →
      (∀ i, j ≤ i → i ≤ mr → op i = Except.error (msgf i)) →
      (∀ i, j ≤ i → i ≤ mr → categorizeError (msgf i) ≠ ErrorType.INSUFFICIENT_BALANCE) →
      (retryGo op name d mr j rem).result
        = Except.error ⟨categorizeError (msgf mr),
            name ++ " failed after " ++ toString mr ++ " attempts: " ++ msgf mr,
            some (msgf mr)⟩ := by
  intro rem
  induction rem with
  | zero => intro j _ hsum hle _ _; omega
  | succ r ih =>
    intro j hj hsum hle hop hret
    have h1 := hop j le_rfl hle
    have h2 := hret j le_rfl hle
    by_cases hr : r = 0
    · subst hr
      have hjm : j = mr := by omega
      subst hjm
      simp [retryGo, h1, h2]
    · have hrec : (retryGo op name d mr j (r + 1)).result
          = (retryGo op name d mr (j + 1) r).result := by
        simp [retryGo, h1, h2, hr]
      rw [hrec]
      exact ih (j + 1) (by omega) (by omega) (by omega)
        (fun i hi1 hi2 => hop i (by omega) hi2)
        (fun i hi1 hi2 => hret i (by omega) hi2)

/-- C6: an operation failing on all maxAttempts attempts with retryable
kinds makes the executor surface a BotError whose kind is the
classification of the last observed error and whose message names the
operation and the attempt count. -/
theorem retry_exhaust_last_error (op : Nat → Except String α) (name : String)
    (d mr : Nat) (msgf : Nat → String) (hmr : 1 ≤ mr)
    (hop : ∀ i, 1 ≤ i → i ≤ mr → op i = Except.error (msgf i))
    (hret : ∀ i, 1 ≤ i → i ≤ mr → categorizeError (msgf i) ≠ ErrorType.INSUFFICIENT_BALANCE) :
    (retryOperation op name d mr).result
      = Except.error ⟨categorizeError (msgf mr),
          name ++ " failed after " ++ toString mr ++ " attempts: " ++ msgf mr,
          some (msgf mr)⟩ := by
  unfold retryOperation
  exact retryGo_exhaust op name d mr msgf mr 1 le_rfl (by omega) hmr hop hret

/-- Witness for C6 (end-to-end scenario D): the claim operation fails 3
times with a network-type message under maxAttempts = 3, and the surfaced
BotError is NetworkError-kind with a message naming "Claim rewards" and
the 3 attempts. -/
theorem retry_exhaust_last_error_witness :
    (retryOperation (fun _ => (Except.error "network timeout" : Except String Nat))
        "Claim rewards" 1000 3).result
      = Except.error ⟨ErrorType.NETWORK_ERROR,
          "Claim rewards failed after 3 attempts: network timeout", some "network timeout"⟩ := by
  have h := retry_exhaust_last_error
    (fun _ => (Except.error "network timeout" : Except String Nat))
    "Claim rewards" 1000 3 (fun _ => "network timeout") (by decide)
    (fun i _ _ => rfl)
    (fun i _ _ => by
      show categorizeError "network timeout" ≠ ErrorType.INSUFFICIENT_BALANCE
      decide)
  rw [h]
  rfl

/-- C8: in every cycle whose pending-reward balance reads as zero, or
reads as X below the configured minimum threshold M, no claim, approve or
stake transaction is submitted, the claimed and staked totals are
unchanged, and the cycle completes as a success with successfulCycles
incremented by one (metrics enabled). -/
theorem cycle_skip_noop (cfg : Config) (m : BotMetrics) (env : CycleEnv) (now : Nat)
    (hm : cfg.enableMetrics = true)
    (h : env.pendingRewards = Except.ok 0
         ∨ ∃ X M, env.pendingRewards = Except.ok X
             ∧ cfg.minStakeAmountUnits = some M ∧ X < M) :
    executeClaimAndStake cfg m env now
      = ([], recordCycleSuccess m now, Except.ok ()) := by
  have hclaim : claimRewards cfg m env = ([], m, Except.ok 0) := by
    unfold claimRewards
    rcases h with h0 | ⟨X, M, hX, hM, hXM⟩
    · simp [h0]
    · by_cases hX0 : X = 0
      · subst hX0
        simp [hX]
      · simp [hX, hX0, hM, hXM]
  unfold executeClaimAndStake
  rw [hclaim]
  simp [hm]

/-- Concrete configuration used by the cycle witnesses: minimum stake
threshold of 10 base units, fee ceiling of 100 wei, metrics enabled. -/
def cfgSample : Config :=
  ⟨"0xstaking", "0xtoken", 24, 3, 1000, some "https://mainnet.base.org",
    some 10, some 100, some 60, true⟩

/-- Witness for C8: with a zero pending-reward read, a concrete cycle
submits nothing and completes as a success. -/
theorem cycle_skip_noop_witness :
    executeClaimAndStake cfgSample initializeMetrics envAllOk 42
      = ([], recordCycleSuccess initializeMetrics 42, Except.ok ()) :=
  cycle_skip_noop cfgSample initializeMetrics envAllOk 42 rfl (Or.inl rfl)

/-- Concrete environment in which the fee gate trips: pending rewards 50
(above the threshold 10 of `cfgSample`), fee estimate 101 wei against the
100 wei ceiling. -/
def envFeeHigh : CycleEnv :=
  ⟨Except.ok 50, Except.ok 101, Except.ok 0, Except.ok (), Except.ok (1, 1),
    Except.ok 0, Except.ok 0, Except.ok 1, Except.ok (), Except.ok (1, 1),
    Except.ok 1, Except.ok (), Except.ok (1, 1)⟩

/-- C1 counterexample: at a concrete cycle whose fee estimate (101 wei)
is read successfully and exceeds the configured ceiling (100 wei), the
cycle does end early with no transactions and unchanged claimed/staked
totals, but — contrary to the claim that it is counted as neither a
success nor a failure — `failedCycles` is incremented from 0 to 1 and
`lastFailedCycle` is stamped: the source treats the fee skip as a failed
cycle. -/
theorem cycle_fee_counted_as_failure :
    executeClaimAndStake cfgSample initializeMetrics envFeeHigh 7
      = ([], ⟨0, 0, 0, 1, none, some 7, 0, 0⟩,
          Except.error ⟨ErrorType.GAS_PRICE_TOO_HIGH,
            "Gas price too high: 101 wei > 100 wei", none⟩) := rfl

/-- C1 amended: if the fee estimate is successfully read and exceeds the
configured ceiling at the pre-claim gate, the cycle ends early with zero
transactions submitted and the claimed and staked totals unchanged, but
it is counted as a failed cycle (failedCycles incremented,
lastFailedCycle stamped) and surfaces a GAS_PRICE_TOO_HIGH error — not as
a skip distinct from failure. -/
theorem cycle_fee_gate_failure (cfg : Config) (m : BotMetrics) (env : CycleEnv)
    (now X C g : Nat)
    (hm : cfg.enableMetrics = true)
    (hp : env.pendingRewards = Except.ok X) (hX : X ≠ 0)
    (hmin : ∀ M, cfg.minStakeAmountUnits = some M → M ≤ X)
    (hC : cfg.maxGasPriceWei = some C)
    (hg : env.gasPrice = Except.ok g)
    (hover : C < g) :
    executeClaimAndStake cfg m env now
      = ([], recordCycleFailure m now,
          Except.error ⟨ErrorType.GAS_PRICE_TOO_HIGH,
            "Gas price too high: " ++ toString g ++ " wei > " ++ toString C ++ " wei",
            none⟩) := by
  have hgate : checkGasPrice cfg env.gasPrice
      = Except.error ⟨ErrorType.GAS_PRICE_TOO_HIGH,
          "Gas price too high: " ++ toString g ++ " wei > " ++ toString C ++ " wei",
          none⟩ := by
    unfold checkGasPrice
    rw [hC, hg]
    simp [hover]
  have hclaim : claimRewards cfg m env
      = ([], m, Except.error ⟨ErrorType.GAS_PRICE_TOO_HIGH,
          "Gas price too high: " ++ toString g ++ " wei > " ++ toString C ++ " wei",
          none⟩) := by
    unfold claimRewards
    cases hMS : cfg.minStakeAmountUnits with
    | none => simp [hp, hX, hMS, hgate]
    | some M =>
      have hMX : ¬ (X < M) := by
        have := hmin M hMS
        omega
      simp [hp, hX, hMS, hMX, hgate]
  unfold executeClaimAndStake
  rw [hclaim]
  simp [hm]

/-- Witness for C1's amended statement at the concrete fee-gate input. -/
theorem cycle_fee_gate_failure_witness :
    executeClaimAndStake cfgSample initializeMetrics envFeeHigh 7
      = ([], recordCycleFailure initializeMetrics 7,
          Except.error ⟨ErrorType.GAS_PRICE_TOO_HIGH,
            "Gas price too high: " ++ toString 101 ++ " wei > " ++ toString 100 ++ " wei",
            none⟩) :=
  cycle_fee_gate_failure cfgSample initializeMetrics envFeeHigh 7 50 100 101
    rfl rfl (by decide)
    (fun M hM => by
      simp only [cfgSample] at hM
      injection hM with h
      omega)
    rfl rfl (by decide)
